import Mathlib

/-!
Verification of the conversational response pipeline in
`app/services/ai_engine.py` (multi-tenant messaging-automation backend).

The pipeline is shallowly embedded: SQLAlchemy sessions become an explicit
`Session` record holding the rows of the three tables the pipeline touches
plus Boolean fault flags that model a raising database call at each of the
guarded call sites (each Python `try/except` around a database operation
becomes a test of the corresponding flag); the OpenAI completion call
becomes an explicit `Except Unit (Option String)` parameter (error, null
content, or content).  The edge-case detectors and the rule-based fallback
brain live in modules that are not part of the provided source tree, so
they are modelled from the specification and marked as such below.
-/

/-- Python substring search helper: `isPrefixList n h` decides whether the
character list `n` is an initial segment of `h`. -/
def isPrefixList : List Char → List Char → Bool
  | [], _ => true
  | _ :: _, [] => false
  | a :: as, b :: bs => a == b && isPrefixList as bs

/-- Python substring search helper: `containsSubList n h` decides whether
the character list `n` occurs contiguously inside `h` (an empty `n` always
occurs, as in Python). -/
def containsSubList (needle : List Char) : List Char → Bool
  | [] => needle.isEmpty
  | c :: rest => isPrefixList needle (c :: rest) || containsSubList needle rest

/-- Embedding of the Python expression `needle in haystack` on strings. -/
def substrIn (needle haystack : String) : Bool :=
  containsSubList needle.data haystack.data

/-- Embedding of Python `str.lower()` (ASCII case folding, which is all
the pipeline relies on), written on the character list so that the kernel
can evaluate it. -/
def pyLower (s : String) : String :=
  ⟨s.data.map Char.toLower⟩

/-- Embedding of Python `str.strip()`: drop whitespace from both ends,
written on the character list so that the kernel can evaluate it. -/
def pyStrip (s : String) : String :=
  ⟨((s.data.dropWhile Char.isWhitespace).reverse.dropWhile
      Char.isWhitespace).reverse⟩

/-- Embedding of Python truthiness of a stripped string, the recurring
`x and x.strip()` guard. -/
def blankGuard (s : String) : Bool :=
  s != "" && pyStrip s != ""

/-- The JSON `keywords` column of a knowledge entry as the pipeline sees
it: `null` (Python falsy: None or empty payload), `bad` (a payload that
raises on `json.loads` or does not decode to a list), or a decoded list of
keyword strings (items that are not strings are dropped by the code and
are not modelled). -/
inductive KeywordsVal where
  | null : KeywordsVal
  | bad : KeywordsVal
  | ok : List String → KeywordsVal
deriving DecidableEq, Repr

/-- Row of the `KnowledgeEntry` table.  Modelled from the spec: the ORM
model module is not in the source tree; fields and their use are taken
from the spec data model and from how `ai_engine.py` reads them. -/
structure KnowledgeEntry where
  business_id : Nat
  question : String
  answer : String
  keywords : KeywordsVal
  is_active : Bool
  updated_at : Nat
deriving DecidableEq, Repr

/-- Row of the `AIRule` table.  Modelled from the spec: the ORM model
module is not in the source tree; fields and their use are taken from the
spec data model and from how `ai_engine.py` reads them. -/
structure AIRule where
  business_id : Nat
  description : Option String
  priority : Nat
  created_at : Nat
  is_active : Bool
deriving DecidableEq, Repr

/-- Row of the `ConversationMemory` table.  Modelled from the spec: the
ORM model module is not in the source tree; fields and their use are taken
from the spec data model and from how `ai_engine.py` reads and writes
them. -/
structure ConversationMemory where
  business_id : Nat
  user_id : String
  channel : String
  last_intent : Option String
  message_count : Option Nat
  context_data : Option String
  updated_at : Nat
deriving DecidableEq, Repr

/-- The transient inbound message (`NormalizedMessage` schema). -/
structure NormalizedMessage where
  channel : String
  user_id : String
  message_text : String
  timestamp : Nat
deriving DecidableEq, Repr

/-- The database session as the pipeline observes it: the rows of the
three tables, one fault flag per guarded database call site (a set flag
means the corresponding call raises and the surrounding handler runs), and
the current clock used for `updated_at`. -/
structure Session where
  knowledge : List KnowledgeEntry
  rules : List AIRule
  memory : List ConversationMemory
  knowledgeFault : Bool
  rulesFault : Bool
  memoryFault : Bool
  updateFault : Bool
  now : Nat
deriving DecidableEq, Repr

/-- A question/answer dictionary produced by knowledge retrieval. -/
structure QA where
  question : String
  answer : String
deriving DecidableEq, Repr

/-- The dictionary returned by `_get_conversation_memory` (the JSON
decoding of `context_data` is irrelevant to every claim and is carried as
the raw payload). -/
structure MemView where
  last_intent : Option String
  message_count : Option Nat
  context_data : Option String
deriving DecidableEq, Repr

/-- Recency order on knowledge entries: `updated_at` descending, the order
requested by the query in `_get_knowledge_context`. -/
def entryRecGE : KnowledgeEntry → KnowledgeEntry → Prop :=
  fun a b => b.updated_at ≤ a.updated_at

instance : DecidableRel entryRecGE :=
  fun a b => Nat.decLe b.updated_at a.updated_at

instance : IsTotal KnowledgeEntry entryRecGE :=
  ⟨fun a b => Nat.le_total b.updated_at a.updated_at⟩

instance : IsTrans KnowledgeEntry entryRecGE :=
  ⟨fun _ _ _ h1 h2 => Nat.le_trans h2 h1⟩

/-- Priority order on rules: `priority` descending, the order requested by
the query in `_get_ai_rules` (`AIRule.priority.desc()`). -/
def rulePriorityGE : AIRule → AIRule → Prop :=
  fun a b => b.priority ≤ a.priority

instance : DecidableRel rulePriorityGE :=
  fun a b => Nat.decLe b.priority a.priority

instance : IsTotal AIRule rulePriorityGE :=
  ⟨fun a b => Nat.le_total b.priority a.priority⟩

instance : IsTrans AIRule rulePriorityGE :=
  ⟨fun _ _ _ h1 h2 => Nat.le_trans h2 h1⟩

/-- The row set produced by the query in `_get_knowledge_context`: filter
by `(business_id, is_active)`, order by `updated_at` descending, limit to
50 rows. -/
def queryKnowledge (db : Session) (business_id : Nat) : List KnowledgeEntry :=
  (((db.knowledge.filter
      (fun e => e.business_id == business_id && e.is_active)).insertionSort
        entryRecGE).take 50)

/-- The row set produced by the query in `_get_ai_rules`: filter by
`(business_id, is_active)`, order by `priority` descending, limit to 10
rows. -/
def queryRules (db : Session) (business_id : Nat) : List AIRule :=
  (((db.rules.filter
      (fun r => r.business_id == business_id && r.is_active)).insertionSort
        rulePriorityGE).take 10)

/-- Keyword hit test from `_get_knowledge_context`: some keyword,
lower-cased, occurs as a substring of the lower-cased message text. -/
def kwMatchB (kws : List String) (messageLower : String) : Bool :=
  kws.any (fun kw => substrIn (pyLower kw) messageLower)

/-- Question hit test from `_get_knowledge_context`: the question is
truthy, occurs lower-cased as a substring of the lower-cased message, and
no already collected dictionary has the same question. -/
def questionHit (e : KnowledgeEntry) (messageLower : String)
    (acc : List QA) : Bool :=
  e.question != "" && substrIn (pyLower e.question) messageLower &&
    !(acc.any (fun x => x.question == e.question))

/-- The dictionary `_get_knowledge_context` builds for an entry. -/
def mkQA (e : KnowledgeEntry) : QA :=
  ⟨e.question, e.answer⟩

/-- The scan loop of `_get_knowledge_context` over the queried rows: for
each entry, first the keyword check (skipped when `keywords` is falsy and
skipped with a logged, swallowed exception when it is malformed), breaking
out of the whole loop as soon as `limit` entries are collected, then the
question-substring check with deduplication by question, with the same
break. -/
def scanKnowledge (messageLower : String) (limit : Nat) :
    List KnowledgeEntry → List QA → List QA
  | [], acc => acc
  | e :: rest, acc =>
    let kwHit := match e.keywords with
      | KeywordsVal.ok kws => kwMatchB kws messageLower
      | _ => false
    if kwHit then
      let acc1 := acc ++ [mkQA e]
      if limit ≤ acc1.length then acc1
      else if questionHit e messageLower acc1 then
        let acc2 := acc1 ++ [mkQA e]
        if limit ≤ acc2.length then acc2
        else scanKnowledge messageLower limit rest acc2
      else scanKnowledge messageLower limit rest acc1
    else if questionHit e messageLower acc then
      let acc1 := acc ++ [mkQA e]
      if limit ≤ acc1.length then acc1
      else scanKnowledge messageLower limit rest acc1
    else scanKnowledge messageLower limit rest acc

/-- Embedding of `_get_knowledge_context(db, business_id, message_text,
limit)`: lower-case and strip the message, run the bounded scan over the
queried rows, and truncate to `limit`; any exception raised by the
database query is caught and degrades the result to `[]`. -/
def get_knowledge_context (db : Session) (business_id : Nat)
    (message_text : String) (limit : Nat := 5) : List QA :=
  if db.knowledgeFault then []
  else
    (scanKnowledge (pyStrip (pyLower message_text)) limit
      (queryKnowledge db business_id) []).take limit

/-- Embedding of `_get_ai_rules(db, business_id)`: the descriptions of the
queried rows whose description is truthy; any exception raised by the
database query is caught and degrades the result to `[]`. -/
def get_ai_rules (db : Session) (business_id : Nat) : List String :=
  if db.rulesFault then []
  else
    (queryRules db business_id).filterMap
      (fun r => r.description.bind (fun d => if d == "" then none else some d))

/-- The filter of the `ConversationMemory` point query: all three key
columns must match. -/
def memMatches (m : ConversationMemory) (business_id : Nat)
    (user_id channel : String) : Bool :=
  m.business_id == business_id && m.user_id == user_id && m.channel == channel

/-- The `.first()` of the `ConversationMemory` point query. -/
def findMemRow (rows : List ConversationMemory) (business_id : Nat)
    (user_id channel : String) : Option ConversationMemory :=
  rows.find? (fun m => memMatches m business_id user_id channel)

/-- Embedding of `_get_conversation_memory`: the matching row as a
dictionary, `none` when there is no row; any exception raised by the
query is caught and degrades the result to `none`. -/
def get_conversation_memory (db : Session) (business_id : Nat)
    (user_id channel : String) : Option MemView :=
  if db.memoryFault then none
  else match findMemRow db.memory business_id user_id channel with
    | some m => some ⟨m.last_intent, m.message_count, m.context_data⟩
    | none => none

/-- The in-place mutation of an existing memory row performed by
`_update_conversation_memory`: set `last_intent`, increment
`message_count` (a null count is coalesced to 0 by `or 0`), stamp
`updated_at`. -/
def updatedMemRow (m : ConversationMemory) (intent : String)
    (now : Nat) : ConversationMemory :=
  { m with
    last_intent := some intent
    message_count := some (m.message_count.getD 0 + 1)
    updated_at := now }

/-- Replace the first row matched by the point query with its mutated
version, leaving every other row in place (SQLAlchemy mutates the fetched
object, so list order is preserved). -/
def replaceFirstMem (business_id : Nat) (user_id channel intent : String)
    (now : Nat) : List ConversationMemory → List ConversationMemory
  | [] => []
  | m :: rest =>
    if memMatches m business_id user_id channel then
      updatedMemRow m intent now :: rest
    else m :: replaceFirstMem business_id user_id channel intent now rest

/-- The fresh row created by `_update_conversation_memory` when the point
query finds nothing. -/
def newMemRow (business_id : Nat) (user_id channel intent : String)
    (now : Nat) : ConversationMemory :=
  ⟨business_id, user_id, channel, some intent, some 1, none, now⟩

/-- Embedding of `_update_conversation_memory`: read-then-write upsert of
the `(business_id, user_id, channel)` row followed by a commit; any
exception in the block is caught, the transaction is rolled back, and the
session is left unchanged (modelled by the `updateFault` flag). -/
def update_conversation_memory (db : Session) (business_id : Nat)
    (user_id channel intent : String) : Session :=
  if db.updateFault then db
  else match findMemRow db.memory business_id user_id channel with
    | some _ =>
      { db with
        memory := replaceFirstMem business_id user_id channel intent
          db.now db.memory }
    | none =>
      { db with
        memory := db.memory ++
          [newMemRow business_id user_id channel intent db.now] }

/-- The fixed guideline lines of `_build_system_prompt` (its initial
`prompt_parts` list), verbatim from the source. -/
def basePromptParts : List String :=
  ["You are a helpful, professional AI assistant for a business communication platform.",
   "Your role is to assist customers with their questions, provide information, and help them achieve their goals.",
   "",
   "IMPORTANT GUIDELINES:",
   "- Be friendly, professional, and concise",
   "- Answer based on the knowledge provided below",
   "- If you don\x27t know something, admit it and offer to connect them with support",
   "- Never make up information",
   "- Keep responses under 300 words",
   "- Use emojis sparingly (max 2 per message)",
   ""]

/-- The numbered rule lines of `_build_system_prompt`: the Python
`enumerate(business_rules, 1)` loop. -/
def numberFrom : Nat → List String → List String
  | _, [] => []
  | i, r :: rest => (toString i ++ ". " ++ r) :: numberFrom (i + 1) rest

/-- Python truthiness of an optional string. -/
def strTruthy : Option String → Bool
  | some s => s != ""
  | none => false

/-- Embedding of `_build_system_prompt` as its `prompt_parts` list: the
fixed guidelines, then the conditional rules, knowledge and conversation
context appends, in source order.  A null `message_count` is treated as 0
here (in the code it would abort prompt building inside the generation
`try` and fall through to the fallback; no claim distinguishes the two). -/
def build_system_prompt_parts (business_rules : List String)
    (knowledge_context : List QA) (memory : Option MemView) : List String :=
  let parts := basePromptParts
  let parts :=
    if business_rules.isEmpty then parts
    else parts ++ ("BUSINESS-SPECIFIC RULES:" :: numberFrom 1 business_rules)
      ++ [""]
  let parts :=
    if knowledge_context.isEmpty then parts
    else parts ++ ("KNOWLEDGE BASE (Use this to answer questions):" ::
      (knowledge_context.map
        (fun e => ["Q: " ++ e.question, "A: " ++ e.answer, ""])).flatten)
  let parts :=
    match memory with
    | some mv =>
      if 1 < mv.message_count.getD 0 then
        parts ++ (["CONVERSATION CONTEXT:",
          "- This is message #" ++ toString (mv.message_count.getD 0) ++
            " from this user"] ++
          (if strTruthy mv.last_intent then
            ["- Previous topic: " ++ mv.last_intent.getD ""]
          else []) ++ [""])
      else parts
    | none => parts
  parts

/-- Embedding of `_build_system_prompt`: the joined prompt string. -/
def build_system_prompt (business_rules : List String)
    (knowledge_context : List QA) (memory : Option MemView) : String :=
  String.intercalate "\n"
    (build_system_prompt_parts business_rules knowledge_context memory)

/-- Modelled from the spec: the spam threshold of the edge-case handler
(`app/services/edge_case_handler.py` is not in the source tree; the spec
fixes only that the threshold and window are fixed constants keyed per
user). -/
def SPAM_THRESHOLD : Nat := 5

/-- Modelled from the spec: the rolling spam-detection window, in
seconds. -/
def SPAM_WINDOW : Nat := 10

/-- Modelled from the spec: the fixed maximum accepted message length (the
spec scenario requires a 5000-character message to be rejected). -/
def MAX_MESSAGE_LENGTH : Nat := 4096

/-- Modelled from the spec: the per-user rolling window of recent message
timestamps kept by the edge-case handler, plus the current clock. -/
structure EdgeState where
  events : List (String × Nat)
  now : Nat
deriving DecidableEq, Repr

/-- Modelled from the spec: `is_spam(user_id)` triggers when the number of
the user\x27s timestamps inside the rolling window reaches the fixed
threshold; it returns a flag and a reason. -/
def is_spam (es : EdgeState) (user_id : String) : Bool × String :=
  let recent := es.events.filter
    (fun p => p.1 == user_id && es.now ≤ p.2 + SPAM_WINDOW)
  (SPAM_THRESHOLD ≤ recent.length, "rate exceeded")

/-- Modelled from the spec: `validate_message_length(message_text)`
accepts exactly the messages of at most the fixed maximum length; it
returns a validity flag and a reason. -/
def validate_message_length (message_text : String) : Bool × String :=
  (message_text.length ≤ MAX_MESSAGE_LENGTH, "too long")

/-- Modelled from the spec: `is_emoji_or_symbol_only(message_text)` holds
for a non-blank message with no alphanumeric character. -/
def is_emoji_or_symbol_only (message_text : String) : Bool :=
  let s := pyStrip message_text
  s != "" && s.data.all (fun c => !c.isAlphanum)

/-- Modelled from the spec: keyword list detecting a file-upload
request. -/
def fileUploadKeywords : List String :=
  ["file", "upload", "attachment"]

/-- Modelled from the spec: keyword list detecting a video-call
request. -/
def videoCallKeywords : List String :=
  ["video call", "videocall", "facetime"]

/-- Modelled from the spec: `is_unsupported_action(message_text)` does a
keyword-based detection of file-upload and video-call requests and returns
a flag with the action type. -/
def is_unsupported_action (message_text : String) : Bool × String :=
  let ml := pyLower message_text
  if fileUploadKeywords.any (fun kw => substrIn kw ml) then
    (true, "file_upload")
  else if videoCallKeywords.any (fun kw => substrIn kw ml) then
    (true, "video_call")
  else (false, "")

/-- Modelled from the spec: the closed intent set of the fallback brain
(`app/services/ai_brain.py` is not in the source tree). -/
inductive Intent where
  | greeting : Intent
  | help : Intent
  | pricing : Intent
  | human_handoff : Intent
  | unknown : Intent
deriving DecidableEq, Repr

/-- Modelled from the spec: the `.value` string of an intent, as persisted
into `last_intent`. -/
def Intent.value : Intent → String
  | Intent.greeting => "greeting"
  | Intent.help => "help"
  | Intent.pricing => "pricing"
  | Intent.human_handoff => "human_handoff"
  | Intent.unknown => "unknown"

/-- Modelled from the spec: fixed greeting keyword list of the fallback
brain (the spec scenario requires "hi there" to hit the greeting
branch). -/
def greetingKeywords : List String :=
  ["hi", "hello", "hey", "good morning", "good afternoon"]

/-- Modelled from the spec: fixed help keyword list of the fallback
brain. -/
def helpKeywords : List String :=
  ["help", "assist", "support"]

/-- Modelled from the spec: fixed pricing keyword list of the fallback
brain. -/
def pricingKeywords : List String :=
  ["price", "pricing", "cost", "how much"]

/-- Modelled from the spec: fixed human-handoff keyword list of the
fallback brain. -/
def handoffKeywords : List String :=
  ["human", "agent", "representative"]

/-- Modelled from the spec: `detect_intent(message)` of the fallback
brain; first keyword-list match wins in a fixed priority order, no match
yields `unknown`. -/
def detect_intent (message : NormalizedMessage) : Intent :=
  let ml := pyLower message.message_text
  if greetingKeywords.any (fun kw => substrIn kw ml) then Intent.greeting
  else if helpKeywords.any (fun kw => substrIn kw ml) then Intent.help
  else if pricingKeywords.any (fun kw => substrIn kw ml) then Intent.pricing
  else if handoffKeywords.any (fun kw => substrIn kw ml) then
    Intent.human_handoff
  else Intent.unknown

/-- The fixed safe reply of the outermost error boundary, verbatim from
the source. -/
def SAFE_DEFAULT : String :=
  "I\x27m here to help! How can I assist you today?"

/-- Modelled from the spec: the canned reply of the fallback brain per
detected intent; the no-match branch produces the generic
"I\x27m here to help" reply. -/
def fallbackReplyOf : Intent → String
  | Intent.greeting => "Hello! 👋 How can I help you today?"
  | Intent.help =>
    "I\x27m happy to help! You can ask me about our products, pricing, or anything else."
  | Intent.pricing =>
    "For detailed pricing information, let me connect you with our team. What specifically are you interested in?"
  | Intent.human_handoff =>
    "I\x27ll connect you with a human agent right away. Please hold on!"
  | Intent.unknown => SAFE_DEFAULT

/-- Modelled from the spec: `process_message` of the fallback brain
(imported as `fallback_process`), a pure function of the message. -/
def fallback_process (message : NormalizedMessage) : String :=
  fallbackReplyOf (detect_intent message)

/-- Embedding of `_init_openai_client`: generation is enabled exactly when
a non-blank API key is configured. -/
def gptEnabledOf (openai_api_key : Option String) : Bool :=
  match openai_api_key with
  | some k => pyStrip k != ""
  | none => false

/-- The canned spam-throttle reply, verbatim from the source. -/
def spamReply : String :=
  "I notice you\x27re sending messages very quickly. Please slow down so I can help you better! 😊"

/-- The canned over-length reply, verbatim from the source. -/
def lengthReply : String :=
  "Your message is quite long! Could you break it down into smaller questions? I\x27m here to help! 😊"

/-- The canned emoji-only reply, verbatim from the source. -/
def emojiReply : String :=
  "I see you sent emojis! 😊 While I love emojis, I work best with text. How can I help you today?"

/-- The canned file-upload reply, verbatim from the source. -/
def fileReply : String :=
  "I can\x27t receive files right now, but I can answer questions! What would you like to know?"

/-- The canned video-call reply, verbatim from the source. -/
def videoReply : String :=
  "I\x27m a text-based assistant, so I can\x27t do video calls. But I\x27m here to help! What can I assist you with?"

/-- Observable outcome of one `process_message_with_gpt` call: the reply,
the session it leaves behind, the composed system prompt when the
generation step was attempted, and whether the retrieval and generation
steps were reached. -/
structure PipeResult where
  reply : String
  db : Session
  systemPrompt : Option String
  knowledgeInvoked : Bool
  generationInvoked : Bool
deriving Repr

/-- Embedding of `process_message_with_gpt(message, business_id, db)`.
The completion call is the `completion` parameter: `Except.error ()` for a
provider or unknown error, `Except.ok none` for a null content,
`Except.ok (some s)` for content `s`.  Edge-case short circuits come
first, in source order; then retrieval, rules and memory reads; then the
generation attempt guarded by `gptEnabledOf`; then the fallback brain with
its own memory update and blank-guard. -/
def process_message_with_gpt (message : NormalizedMessage)
    (business_id : Nat) (db : Session) (openai_api_key : Option String)
    (completion : Except Unit (Option String)) (es : EdgeState) :
    PipeResult :=
  if (is_spam es message.user_id).1 then
    ⟨spamReply, db, none, false, false⟩
  else if !(validate_message_length message.message_text).1 then
    ⟨lengthReply, db, none, false, false⟩
  else if is_emoji_or_symbol_only message.message_text then
    ⟨emojiReply, db, none, false, false⟩
  else if (is_unsupported_action message.message_text).1 &&
      (is_unsupported_action message.message_text).2 == "file_upload" then
    ⟨fileReply, db, none, false, false⟩
  else if (is_unsupported_action message.message_text).1 &&
      (is_unsupported_action message.message_text).2 == "video_call" then
    ⟨videoReply, db, none, false, false⟩
  else
    let knowledge_context :=
      get_knowledge_context db business_id message.message_text
    let ai_rules := get_ai_rules db business_id
    let memory :=
      get_conversation_memory db business_id message.user_id message.channel
    if gptEnabledOf openai_api_key then
      let system_prompt :=
        build_system_prompt ai_rules knowledge_context memory
      match completion with
      | Except.ok (some s) =>
        if blankGuard s then
          let db2 := update_conversation_memory db business_id
            message.user_id message.channel "conversation"
          ⟨pyStrip s, db2, some system_prompt, true, true⟩
        else
          let response := fallback_process message
          let intent_value := (detect_intent message).value
          let db2 := update_conversation_memory db business_id
            message.user_id message.channel intent_value
          ⟨if blankGuard response then response
            else SAFE_DEFAULT, db2, some system_prompt, true, true⟩
      | _ =>
        let response := fallback_process message
        let intent_value := (detect_intent message).value
        let db2 := update_conversation_memory db business_id
          message.user_id message.channel intent_value
        ⟨if blankGuard response then response
          else SAFE_DEFAULT, db2, some system_prompt, true, true⟩
    else
      let response := fallback_process message
      let intent_value := (detect_intent message).value
      let db2 := update_conversation_memory db business_id
        message.user_id message.channel intent_value
      ⟨if blankGuard response then response
        else SAFE_DEFAULT, db2, none, true, false⟩

/-- Embedding of the outer entry point `process_message(message,
business_id)`: input validation (a missing message or falsy
`message_text` yields `SAFE_DEFAULT`), then the inner pipeline inside the
database context, with its reply blank-guarded once more; `ctxFault`
models an exception raised while entering the database context or any
other escape from the outer `try`, which the outermost handler converts to
`SAFE_DEFAULT`. -/
def process_message (message : Option NormalizedMessage)
    (business_id : Nat) (db : Session) (openai_api_key : Option String)
    (completion : Except Unit (Option String)) (es : EdgeState)
    (ctxFault : Bool) : String :=
  match message with
  | none => SAFE_DEFAULT
  | some m =>
    if m.message_text == "" then SAFE_DEFAULT
    else if ctxFault then SAFE_DEFAULT
    else
      let response :=
        (process_message_with_gpt m business_id db openai_api_key
          completion es).reply
      if blankGuard response then response
      else SAFE_DEFAULT

/-- The rule order asserted by the specification (priority ascending,
then `created_at` descending), stated from the spec text so that it can
be compared with the order the code actually requests. -/
def ruleSpecOrder : AIRule → AIRule → Prop :=
  fun a b => a.priority < b.priority ∨
    (a.priority = b.priority ∧ b.created_at ≤ a.created_at)

instance : DecidableRel ruleSpecOrder := fun a b => by
  unfold ruleSpecOrder; infer_instance

/-- The rule loader exactly as the specification words it: the same
filter, bound and description selection as `_get_ai_rules`, but ordered by
`(priority asc, created_at desc)`. -/
def get_ai_rules_spec (db : Session) (business_id : Nat) : List String :=
  if db.rulesFault then []
  else
    ((((db.rules.filter
        (fun r => r.business_id == business_id && r.is_active)).insertionSort
          ruleSpecOrder).take 10).filterMap
      (fun r => r.description.bind (fun d => if d == "" then none else some d)))

/-- The rules section of the prompt, as the specification words it: a
header and numbered rule lines, present exactly when `rules` is
non-empty. -/
def rulesBlockSpec (rules : List String) : List String :=
  if rules.isEmpty then []
  else ("BUSINESS-SPECIFIC RULES:" ::
    ((List.enumFrom 1 rules).map (fun p => toString p.1 ++ ". " ++ p.2)))
    ++ [""]

/-- The knowledge section of the prompt, as the specification words it: a
header and Q/A pairs, present exactly when `knowledge` is non-empty. -/
def knowledgeBlockSpec (knowledge : List QA) : List String :=
  if knowledge.isEmpty then []
  else "KNOWLEDGE BASE (Use this to answer questions):" ::
    (knowledge.map
      (fun e => ["Q: " ++ e.question, "A: " ++ e.answer, ""])).flatten

/-- The conversation-context section of the prompt, as the specification
words it: present exactly when memory exists with a message count above
one. -/
def memoryBlockSpec (memory : Option MemView) : List String :=
  match memory with
  | some mv =>
    if 1 < mv.message_count.getD 0 then
      ["CONVERSATION CONTEXT:",
        "- This is message #" ++ toString (mv.message_count.getD 0) ++
          " from this user"] ++
        (if strTruthy mv.last_intent then
          ["- Previous topic: " ++ mv.last_intent.getD ""]
        else []) ++ [""]
    else []
  | none => []

/-- An entry hits the retrieval scan when one of its parsed keywords
occurs lower-cased in the message or its truthy question occurs
lower-cased in the message. -/
def entryMatches (e : KnowledgeEntry) (messageLower : String) : Bool :=
  (match e.keywords with
    | KeywordsVal.ok kws => kwMatchB kws messageLower
    | _ => false) ||
  (e.question != "" && substrIn (pyLower e.question) messageLower)

theorem numberFrom_eq_enumFrom (l : List String) :
    ∀ i, numberFrom i l =
      (List.enumFrom i l).map (fun p => toString p.1 ++ ". " ++ p.2) := by
  induction l with
  | nil => intro i; rfl
  | cons r rest ih =>
    intro i
    simp [numberFrom, List.enumFrom, ih (i + 1)]

theorem questionHit_append_self (e : KnowledgeEntry) (ml : String)
    (acc : List QA) : questionHit e ml (acc ++ [mkQA e]) = false := by
  simp [questionHit, mkQA]

/-- Structure of the retrieval scan: it extends the accumulator with a
selection, in scan order, of the dictionaries of matching rows. -/
theorem scanKnowledge_structure (ml : String) (lim : Nat) :
    ∀ (rows : List KnowledgeEntry) (acc : List QA),
      ∃ tail, scanKnowledge ml lim rows acc = acc ++ tail ∧
        tail.Sublist
          ((rows.filter (fun e => entryMatches e ml)).map mkQA) := by
  intro rows
  induction rows with
  | nil =>
    intro acc
    exact ⟨[], by simp [scanKnowledge]⟩
  | cons e rest ih =>
    intro acc
    by_cases hkw : (match e.keywords with
      | KeywordsVal.ok kws => kwMatchB kws ml
      | _ => false) = true
    · have hmatch : entryMatches e ml = true := by
        simp [entryMatches, hkw]
      by_cases hlim : lim ≤ (acc ++ [mkQA e]).length
      · refine ⟨[mkQA e], ?_, ?_⟩
        · simp only [scanKnowledge, hkw, if_true, hlim, if_true]
        · simp only [List.filter_cons, hmatch, if_true, List.map_cons]
          exact (List.nil_sublist _).cons₂ _
      · obtain ⟨tail, htail, hsub⟩ := ih (acc ++ [mkQA e])
        refine ⟨mkQA e :: tail, ?_, ?_⟩
        · simp only [scanKnowledge, hkw, if_true, hlim, if_false,
            questionHit_append_self, List.append_assoc, List.singleton_append]
          exact htail.trans (by simp)
        · simp only [List.filter_cons, hmatch, if_true, List.map_cons]
          exact hsub.cons₂ _
    · by_cases hq : questionHit e ml acc = true
      · have hmatch : entryMatches e ml = true := by
          have h1 := hq
          simp only [questionHit, Bool.and_eq_true] at h1
          simp [entryMatches, h1.1.1, h1.1.2]
        by_cases hlim : lim ≤ (acc ++ [mkQA e]).length
        · refine ⟨[mkQA e], ?_, ?_⟩
          · simp only [scanKnowledge, hkw, if_false, hq, if_true, hlim,
              if_true]
            simp [Bool.not_eq_true] at hkw
            simp [hkw]
          · simp only [List.filter_cons, hmatch, if_true, List.map_cons]
            exact (List.nil_sublist _).cons₂ _
        · obtain ⟨tail, htail, hsub⟩ := ih (acc ++ [mkQA e])
          refine ⟨mkQA e :: tail, ?_, ?_⟩
          · simp only [scanKnowledge, hkw, if_false, hq, if_true, hlim,
              if_false]
            simp [Bool.not_eq_true] at hkw
            simp [hkw, hq, hlim, htail]
          · simp only [List.filter_cons, hmatch, if_true, List.map_cons]
            exact hsub.cons₂ _
      · obtain ⟨tail, htail, hsub⟩ := ih acc
        refine ⟨tail, ?_, ?_⟩
        · simp [Bool.not_eq_true] at hkw hq
          simp [scanKnowledge, hkw, hq, htail]
        · have : ((rest.filter (fun e => entryMatches e ml)).map mkQA).Sublist
              (((e :: rest).filter (fun e => entryMatches e ml)).map mkQA) := by
            simp only [List.filter_cons]
            by_cases hm : entryMatches e ml = true
            · simp only [hm, if_true, List.map_cons]
              exact (List.Sublist.refl _).cons _
            · simp [hm]
          exact hsub.trans this

theorem memMatches_updatedMemRow (m : ConversationMemory) (intent : String)
    (now business_id : Nat) (user_id channel : String) :
    memMatches (updatedMemRow m intent now) business_id user_id channel =
      memMatches m business_id user_id channel := by
  simp [memMatches, updatedMemRow]

theorem memMatches_newMemRow (business_id : Nat)
    (user_id channel intent : String) (now : Nat) :
    memMatches (newMemRow business_id user_id channel intent now)
      business_id user_id channel = true := by
  simp [memMatches, newMemRow]

theorem findMemRow_cons_pos {m : ConversationMemory}
    {business_id : Nat} {user_id channel : String}
    (l : List ConversationMemory)
    (hm : memMatches m business_id user_id channel = true) :
    findMemRow (m :: l) business_id user_id channel = some m := by
  unfold findMemRow
  exact List.find?_cons_of_pos _ hm

theorem findMemRow_cons_neg {m : ConversationMemory}
    {business_id : Nat} {user_id channel : String}
    (l : List ConversationMemory)
    (hm : ¬memMatches m business_id user_id channel = true) :
    findMemRow (m :: l) business_id user_id channel =
      findMemRow l business_id user_id channel := by
  unfold findMemRow
  exact List.find?_cons_of_neg _ hm

theorem findMemRow_append_of_none (business_id : Nat)
    (user_id channel : String) (l2 : List ConversationMemory) :
    ∀ l1, findMemRow l1 business_id user_id channel = none →
      findMemRow (l1 ++ l2) business_id user_id channel =
        findMemRow l2 business_id user_id channel := by
  intro l1
  induction l1 with
  | nil => intro _; rfl
  | cons m rest ih =>
    intro h
    by_cases hm : memMatches m business_id user_id channel = true
    · rw [findMemRow_cons_pos rest hm] at h
      exact absurd h (by simp)
    · rw [findMemRow_cons_neg rest hm] at h
      rw [List.cons_append, findMemRow_cons_neg (rest ++ l2) hm]
      exact ih h

theorem findMemRow_replaceFirstMem (business_id : Nat)
    (user_id channel intent : String) (now : Nat) :
    ∀ (l : List ConversationMemory) (old : ConversationMemory),
      findMemRow l business_id user_id channel = some old →
      findMemRow (replaceFirstMem business_id user_id channel intent now l)
        business_id user_id channel = some (updatedMemRow old intent now) := by
  intro l
  induction l with
  | nil => intro old h; simp [findMemRow] at h
  | cons m rest ih =>
    intro old h
    by_cases hm : memMatches m business_id user_id channel = true
    · rw [findMemRow_cons_pos rest hm] at h
      have hold : m = old := Option.some_inj.mp h
      subst hold
      have hm' : memMatches (updatedMemRow m intent now)
          business_id user_id channel = true := by
        rw [memMatches_updatedMemRow]; exact hm
      have hrep : replaceFirstMem business_id user_id channel intent now
          (m :: rest) = updatedMemRow m intent now :: rest := by
        simp [replaceFirstMem, hm]
      rw [hrep, findMemRow_cons_pos rest hm']
    · rw [findMemRow_cons_neg rest hm] at h
      have hrep : replaceFirstMem business_id user_id channel intent now
          (m :: rest) =
          m :: replaceFirstMem business_id user_id channel intent now rest := by
        simp [replaceFirstMem, hm]
      rw [hrep, findMemRow_cons_neg _ hm]
      exact ih old h

/-- After a successful upsert, the point query finds the mutated row when
one existed and the freshly created row otherwise. -/
theorem findMemRow_after_update (db : Session) (business_id : Nat)
    (user_id channel intent : String) (h : db.updateFault = false) :
    findMemRow (update_conversation_memory db business_id user_id channel
        intent).memory business_id user_id channel =
      some (match findMemRow db.memory business_id user_id channel with
        | some old => updatedMemRow old intent db.now
        | none => newMemRow business_id user_id channel intent db.now) := by
  cases hf : findMemRow db.memory business_id user_id channel with
  | some old =>
    simp only [update_conversation_memory, h, Bool.false_eq_true, if_false,
      hf]
    exact findMemRow_replaceFirstMem business_id user_id channel intent
      db.now db.memory old hf
  | none =>
    simp only [update_conversation_memory, h, Bool.false_eq_true, if_false,
      hf]
    rw [findMemRow_append_of_none business_id user_id channel _ db.memory hf]
    exact findMemRow_cons_pos []
      (memMatches_newMemRow business_id user_id channel intent db.now)

theorem blankGuard_ne_empty {s : String} (h : blankGuard s = true) :
    s ≠ "" := by
  simp only [blankGuard, Bool.and_eq_true, bne_iff_ne] at h
  exact h.1

theorem fallback_process_blankGuard (message : NormalizedMessage) :
    blankGuard (fallback_process message) = true := by
  cases h : detect_intent message <;>
    simp [fallback_process, fallbackReplyOf, h] <;> decide

/-- Provenance of the rule loader output: every returned description comes
from an active rule row of the queried tenant with that truthy
description. -/
theorem get_ai_rules_mem (db : Session) (business_id : Nat) :
    ∀ d ∈ get_ai_rules db business_id,
      ∃ r ∈ db.rules, r.business_id = business_id ∧ r.is_active = true ∧
        r.description = some d ∧ d ≠ "" := by
  intro d hd
  unfold get_ai_rules at hd
  cases hrf : db.rulesFault with
  | true => simp [hrf] at hd
  | false =>
    simp only [hrf, Bool.false_eq_true, if_false] at hd
    obtain ⟨r, hr, hfr⟩ := List.mem_filterMap.mp hd
    have hq2 := List.mem_of_mem_take hr
    have hq3 := (List.mem_insertionSort rulePriorityGE).mp hq2
    obtain ⟨hmem, hcond⟩ := List.mem_filter.mp hq3
    simp only [Bool.and_eq_true, beq_iff_eq] at hcond
    cases hdesc : r.description with
    | none => rw [hdesc] at hfr; simp at hfr
    | some d0 =>
      rw [hdesc] at hfr
      rw [show (some d0).bind
          (fun d => if d == "" then none else some d) =
          (if d0 == "" then none else some d0) from rfl] at hfr
      by_cases hd0 : (d0 == "") = true
      · rw [if_pos hd0] at hfr; simp at hfr
      · rw [if_neg hd0] at hfr
        have heq : d0 = d := Option.some_inj.mp hfr
        subst heq
        have hne : d0 ≠ "" := by
          intro hh; subst hh; exact hd0 (by decide)
        exact ⟨r, hmem, hcond.1, hcond.2, hdesc, hne⟩

/-- C1: for every input (including a missing message, empty or malformed
message text) and every tenant, `process_message` returns a non-empty
string and never raises; any escape from the outer protected block
(`ctxFault`) and every invalid input is converted to the fixed
`SAFE_DEFAULT` string at the outermost boundary. -/
theorem claim_C1_never_empty_never_raises :
    ∀ (message : Option NormalizedMessage) (business_id : Nat) (db : Session)
      (openai_api_key : Option String)
      (completion : Except Unit (Option String)) (es : EdgeState)
      (ctxFault : Bool),
      process_message message business_id db openai_api_key completion es
        ctxFault ≠ "" ∧
      process_message message business_id db openai_api_key completion es
        true = SAFE_DEFAULT ∧
      process_message none business_id db openai_api_key completion es
        ctxFault = SAFE_DEFAULT := by
  intro message business_id db openai_api_key completion es ctxFault
  refine ⟨?_, ?_, ?_⟩
  · cases message with
    | none =>
      show SAFE_DEFAULT ≠ ""
      decide
    | some m =>
      simp only [process_message]
      split_ifs with h1 h2 h3
      · decide
      · decide
      · exact blankGuard_ne_empty h3
      · decide
  · cases message with
    | none => rfl
    | some m => simp [process_message]
  · rfl

/-- C2: every read the pipeline performs on the knowledge, rule and
conversation-memory tables is filtered by the tenant: whatever the message
content, each returned item originates in a row of the invoking tenant
(so tenant A never observes tenant B rows, even when B keywords lexically
match the message). -/
theorem claim_C2_tenant_isolation :
    ∀ (db : Session) (business_id lim : Nat)
      (message_text user_id channel : String),
      (∀ qa ∈ get_knowledge_context db business_id message_text lim,
        ∃ e ∈ db.knowledge, e.business_id = business_id ∧
          e.is_active = true ∧ qa = mkQA e) ∧
      (∀ d ∈ get_ai_rules db business_id,
        ∃ r ∈ db.rules, r.business_id = business_id ∧
          r.is_active = true ∧ r.description = some d) ∧
      (∀ v, get_conversation_memory db business_id user_id channel = some v →
        ∃ m ∈ db.memory, m.business_id = business_id ∧
          m.user_id = user_id ∧ m.channel = channel ∧
          v.last_intent = m.last_intent) := by
  intro db business_id lim message_text user_id channel
  refine ⟨?_, ?_, ?_⟩
  · intro qa hqa
    unfold get_knowledge_context at hqa
    cases hkf : db.knowledgeFault with
    | true => simp [hkf] at hqa
    | false =>
      simp only [hkf, Bool.false_eq_true, if_false] at hqa
      have hqa2 := List.mem_of_mem_take hqa
      obtain ⟨tail, heq, hsub⟩ :=
        scanKnowledge_structure (pyStrip (pyLower message_text)) lim
          (queryKnowledge db business_id) []
      rw [heq, List.nil_append] at hqa2
      have hqa3 := hsub.subset hqa2
      obtain ⟨e, hef, hmk⟩ := List.mem_map.mp hqa3
      have hq1 := (List.mem_filter.mp hef).1
      have hq2 := List.mem_of_mem_take hq1
      have hq3 := (List.mem_insertionSort entryRecGE).mp hq2
      obtain ⟨hmem, hcond⟩ := List.mem_filter.mp hq3
      simp only [Bool.and_eq_true, beq_iff_eq] at hcond
      exact ⟨e, hmem, hcond.1, hcond.2, hmk.symm⟩
  · intro d hd
    obtain ⟨r, hmem, h1, h2, h3, _⟩ := get_ai_rules_mem db business_id d hd
    exact ⟨r, hmem, h1, h2, h3⟩
  · intro v hv
    unfold get_conversation_memory at hv
    cases hmf : db.memoryFault with
    | true => simp [hmf] at hv
    | false =>
      simp only [hmf, Bool.false_eq_true, if_false] at hv
      cases hfind : findMemRow db.memory business_id user_id channel with
      | none => rw [hfind] at hv; simp at hv
      | some m =>
        rw [hfind] at hv
        have hveq : v = ⟨m.last_intent, m.message_count, m.context_data⟩ :=
          (Option.some_inj.mp hv).symm
        unfold findMemRow at hfind
        have hmem := List.mem_of_find?_eq_some hfind
        have hp := List.find?_some hfind
        simp only [memMatches, Bool.and_eq_true, beq_iff_eq] at hp
        exact ⟨m, hmem, hp.1.1, hp.1.2, hp.2, by rw [hveq]⟩

/-- C3: whenever an edge-case detector triggers (in the source's check
order), the pipeline returns that detector's canned reply immediately:
the session (and so the conversation-memory row) is left unchanged,
knowledge retrieval is never reached and generation is never reached. -/
theorem claim_C3_edge_case_short_circuit :
    ∀ (m : NormalizedMessage) (business_id : Nat) (db : Session)
      (openai_api_key : Option String)
      (completion : Except Unit (Option String)) (es : EdgeState),
      ((is_spam es m.user_id).1 = true →
        process_message_with_gpt m business_id db openai_api_key completion
          es = ⟨spamReply, db, none, false, false⟩) ∧
      ((is_spam es m.user_id).1 = false →
        (validate_message_length m.message_text).1 = false →
        process_message_with_gpt m business_id db openai_api_key completion
          es = ⟨lengthReply, db, none, false, false⟩) ∧
      ((is_spam es m.user_id).1 = false →
        (validate_message_length m.message_text).1 = true →
        is_emoji_or_symbol_only m.message_text = true →
        process_message_with_gpt m business_id db openai_api_key completion
          es = ⟨emojiReply, db, none, false, false⟩) ∧
      ((is_spam es m.user_id).1 = false →
        (validate_message_length m.message_text).1 = true →
        is_emoji_or_symbol_only m.message_text = false →
        (is_unsupported_action m.message_text).1 = true →
        (is_unsupported_action m.message_text).2 = "file_upload" →
        process_message_with_gpt m business_id db openai_api_key completion
          es = ⟨fileReply, db, none, false, false⟩) ∧
      ((is_spam es m.user_id).1 = false →
        (validate_message_length m.message_text).1 = true →
        is_emoji_or_symbol_only m.message_text = false →
        (is_unsupported_action m.message_text).1 = true →
        (is_unsupported_action m.message_text).2 = "video_call" →
        process_message_with_gpt m business_id db openai_api_key completion
          es = ⟨videoReply, db, none, false, false⟩) := by
  intro m business_id db openai_api_key completion es
  refine ⟨?_, ?_, ?_, ?_, ?_⟩
  · intro h1
    simp [process_message_with_gpt, h1]
  · intro h1 h2
    simp [process_message_with_gpt, h1, h2]
  · intro h1 h2 h3
    simp [process_message_with_gpt, h1, h2, h3]
  · intro h1 h2 h3 h4 h5
    simp [process_message_with_gpt, h1, h2, h3, h4, h5]
  · intro h1 h2 h3 h4 h5
    simp [process_message_with_gpt, h1, h2, h3, h4, h5,
      show (("video_call" : String) == "file_upload") = false from by decide]

/-- Concrete session used to witness the tenant-isolation theorem. -/
def c2db : Session :=
  ⟨[⟨7, "refund policy", "30 days", KeywordsVal.ok ["refund"], true, 1⟩],
   [⟨7, some "be nice", 1, 0, true⟩],
   [⟨7, "u9", "telegram", some "pricing", some 3, none, 2⟩],
   false, false, false, false, 0⟩

/-- Witness for C2 at a concrete session: each conjunct of the isolation
theorem applied to a concretely retrieved item. -/
theorem claim_C2_witness :
    (∃ e ∈ c2db.knowledge, e.business_id = 7 ∧ e.is_active = true ∧
      (⟨"refund policy", "30 days"⟩ : QA) = mkQA e) ∧
    (∃ r ∈ c2db.rules, r.business_id = 7 ∧ r.is_active = true ∧
      r.description = some "be nice") ∧
    (∃ m ∈ c2db.memory, m.business_id = 7 ∧ m.user_id = "u9" ∧
      m.channel = "telegram" ∧
      (MemView.mk (some "pricing") (some 3) none).last_intent =
        m.last_intent) := by
  obtain ⟨h1, h2, h3⟩ :=
    claim_C2_tenant_isolation c2db 7 5 "i want a refund" "u9" "telegram"
  exact ⟨h1 ⟨"refund policy", "30 days"⟩ (by decide),
    h2 "be nice" (by decide),
    h3 ⟨some "pricing", some 3, none⟩ (by decide)⟩

/-- Concrete inputs used to witness the short-circuit theorem: a user over
the spam threshold. -/
def c3es : EdgeState :=
  ⟨[("u1", 0), ("u1", 1), ("u1", 2), ("u1", 3), ("u1", 4)], 5⟩

/-- Concrete message used to witness the short-circuit theorem. -/
def c3msg : NormalizedMessage := ⟨"telegram", "u1", "hi there", 5⟩

/-- Concrete session used to witness the short-circuit theorem. -/
def c3db : Session :=
  ⟨[⟨1, "q", "a", KeywordsVal.ok ["hi"], true, 0⟩], [], [],
   false, false, false, false, 0⟩

/-- Witness for C3 at a concrete spam-triggering input: the canned
throttle reply comes back and the session is untouched. -/
theorem claim_C3_witness :
    (is_spam c3es c3msg.user_id).1 = true ∧
    process_message_with_gpt c3msg 1 c3db none (Except.error ()) c3es =
      ⟨spamReply, c3db, none, false, false⟩ := by
  refine ⟨by decide, ?_⟩
  exact (claim_C3_edge_case_short_circuit c3msg 1 c3db none
    (Except.error ()) c3es).1 (by decide)

/-- Concrete session refuting the claimed ascending rule order: two active
rules of tenant 1 with priorities 1 and 2. -/
def c4db : Session :=
  ⟨[], [⟨1, some "a", 1, 0, true⟩, ⟨1, some "b", 2, 0, true⟩], [],
   false, false, false, false, 0⟩

/-- C4 counterexample: the code orders rules by `priority` descending
(`AIRule.priority.desc()`), so the loader returns the priority-2 rule
before the priority-1 rule, while the claimed order (priority ascending,
then recency) would return them the other way around. -/
theorem claim_C4_counterexample :
    get_ai_rules c4db 1 = ["b", "a"] ∧
    get_ai_rules_spec c4db 1 = ["a", "b"] ∧
    get_ai_rules c4db 1 ≠ get_ai_rules_spec c4db 1 := by
  refine ⟨by decide, by decide, by decide⟩

/-- C4 (amended): the rule-context loader returns up to 10 truthy
descriptions of the tenant's active rules, ordered by `priority`
descending (highest priority value first, with no `created_at`
tie-break), and degrades to an empty list on any query failure. -/
theorem claim_C4_rules_loader_descending :
    ∀ (db : Session) (business_id : Nat),
      (db.rulesFault = true → get_ai_rules db business_id = []) ∧
      (get_ai_rules db business_id).length ≤ 10 ∧
      List.Sorted rulePriorityGE (queryRules db business_id) ∧
      (∀ d ∈ get_ai_rules db business_id,
        ∃ r ∈ db.rules, r.business_id = business_id ∧ r.is_active = true ∧
          r.description = some d ∧ d ≠ "") := by
  intro db business_id
  refine ⟨?_, ?_, ?_, get_ai_rules_mem db business_id⟩
  · intro h
    simp [get_ai_rules, h]
  · have hq : (queryRules db business_id).length ≤ 10 := by
      unfold queryRules
      rw [List.length_take]
      exact Nat.min_le_left _ _
    unfold get_ai_rules
    cases hrf : db.rulesFault with
    | true => simp
    | false =>
      simp only [Bool.false_eq_true, if_false]
      exact Nat.le_trans (List.length_filterMap_le _ _) hq
  · unfold queryRules
    exact List.Pairwise.sublist (List.take_sublist _ _)
      (List.sorted_insertionSort rulePriorityGE _)

/-- Witness for C4 at concrete sessions: the fault branch degrades to the
empty list and a concretely returned description is traced to its rule
row. -/
theorem claim_C4_witness :
    get_ai_rules ⟨[], [⟨1, some "a", 1, 0, true⟩], [],
      false, true, false, false, 0⟩ 1 = [] ∧
    (∃ r ∈ c4db.rules, r.business_id = 1 ∧ r.is_active = true ∧
      r.description = some "b" ∧ "b" ≠ "") := by
  refine ⟨?_, ?_⟩
  · exact (claim_C4_rules_loader_descending ⟨[], [⟨1, some "a", 1, 0, true⟩],
      [], false, true, false, false, 0⟩ 1).1 rfl
  · exact (claim_C4_rules_loader_descending c4db 1).2.2.2 "b" (by decide)

/-- Concrete session refuting the claimed parse-error behavior: a single
active entry of tenant 1 whose keywords payload does not parse but whose
question occurs in the message. -/
def c5db : Session :=
  ⟨[⟨1, "refund", "x", KeywordsVal.bad, true, 3⟩], [], [],
   false, false, false, false, 0⟩

/-- C5 counterexample: a keywords parse error on an entry does not degrade
the result to the empty list; the entry is still returned through the
question-substring path, so retrieval is non-empty despite the parse
error. -/
theorem claim_C5_counterexample :
    c5db.knowledge.map KnowledgeEntry.keywords = [KeywordsVal.bad] ∧
    get_knowledge_context c5db 1 "refund" 5 = [⟨"refund", "x"⟩] ∧
    get_knowledge_context c5db 1 "refund" 5 ≠ [] := by
  refine ⟨by decide, by decide, by decide⟩

/-- C5 (amended): retrieval scans at most the 50 most-recently-updated
active entries of the tenant (`updated_at` descending); the result holds
at most `limit` dictionaries and is a scan-order selection of the
matching entries (keyword substring hit on parsed keywords, or question
substring hit, deduplicated by question); a failure of the database query
itself degrades the result to the empty list, while a keywords parse
error merely skips that entry's keyword check. -/
theorem claim_C5_bounded_scan_retrieval :
    ∀ (db : Session) (business_id lim : Nat) (message_text : String),
      (db.knowledgeFault = true →
        get_knowledge_context db business_id message_text lim = []) ∧
      (get_knowledge_context db business_id message_text lim).length ≤ lim ∧
      (queryKnowledge db business_id).length ≤ 50 ∧
      List.Sorted entryRecGE (queryKnowledge db business_id) ∧
      (get_knowledge_context db business_id message_text lim).Sublist
        (((queryKnowledge db business_id).filter
          (fun e => entryMatches e (pyStrip (pyLower message_text)))).map
            mkQA) := by
  intro db business_id lim message_text
  refine ⟨?_, ?_, ?_, ?_, ?_⟩
  · intro h
    simp [get_knowledge_context, h]
  · unfold get_knowledge_context
    cases hkf : db.knowledgeFault with
    | true => simp
    | false =>
      simp only [Bool.false_eq_true, if_false]
      rw [List.length_take]
      exact Nat.min_le_left _ _
  · unfold queryKnowledge
    rw [List.length_take]
    exact Nat.min_le_left _ _
  · unfold queryKnowledge
    exact List.Pairwise.sublist (List.take_sublist _ _)
      (List.sorted_insertionSort entryRecGE _)
  · unfold get_knowledge_context
    cases hkf : db.knowledgeFault with
    | true => simp
    | false =>
      simp only [Bool.false_eq_true, if_false]
      obtain ⟨tail, heq, hsub⟩ :=
        scanKnowledge_structure (pyStrip (pyLower message_text)) lim
          (queryKnowledge db business_id) []
      rw [heq, List.nil_append]
      exact (List.take_sublist _ _).trans hsub

/-- Witness for C5 at concrete sessions: the query-fault branch degrades
to the empty list, and the bound holds on a concrete retrieval. -/
theorem claim_C5_witness :
    get_knowledge_context ⟨[⟨1, "refund", "x", KeywordsVal.bad, true, 3⟩],
      [], [], true, false, false, false, 0⟩ 1 "refund" 5 = [] ∧
    (get_knowledge_context c5db 1 "refund" 5).length ≤ 5 := by
  refine ⟨?_, ?_⟩
  · exact (claim_C5_bounded_scan_retrieval
      ⟨[⟨1, "refund", "x", KeywordsVal.bad, true, 3⟩], [], [],
        true, false, false, false, 0⟩ 1 5 "refund").1 rfl
  · exact (claim_C5_bounded_scan_retrieval c5db 1 5 "refund").2.1

/-- C6: the system prompt is the fixed guideline block, then the numbered
business-rules block exactly when rules are present, then the knowledge
Q/A block exactly when knowledge is present, then the conversation-context
block exactly when memory exists with a message count above one, in that
order; with no rules, no knowledge and no memory only the guideline block
remains. -/
theorem claim_C6_prompt_composition :
    ∀ (rules : List String) (knowledge : List QA) (memory : Option MemView),
      build_system_prompt_parts rules knowledge memory =
        basePromptParts ++ rulesBlockSpec rules ++
          knowledgeBlockSpec knowledge ++ memoryBlockSpec memory ∧
      (rulesBlockSpec rules = [] ↔ rules = []) ∧
      (knowledgeBlockSpec knowledge = [] ↔ knowledge = []) ∧
      memoryBlockSpec none = [] ∧
      (∀ mv, memoryBlockSpec (some mv) = [] ↔
        ¬1 < mv.message_count.getD 0) ∧
      build_system_prompt [] [] none =
        String.intercalate "\n" basePromptParts := by
  intro rules knowledge memory
  refine ⟨?_, ?_, ?_, rfl, ?_, rfl⟩
  · cases memory with
    | none =>
      by_cases hr : rules.isEmpty <;> by_cases hk : knowledge.isEmpty <;>
        simp [build_system_prompt_parts, rulesBlockSpec, knowledgeBlockSpec,
          memoryBlockSpec, numberFrom_eq_enumFrom, hr, hk, List.append_assoc]
    | some mv =>
      by_cases hm : 1 < mv.message_count.getD 0 <;>
        by_cases hr : rules.isEmpty <;> by_cases hk : knowledge.isEmpty <;>
          simp [build_system_prompt_parts, rulesBlockSpec, knowledgeBlockSpec,
            memoryBlockSpec, numberFrom_eq_enumFrom, hr, hk, hm,
            List.append_assoc]
  · cases rules with
    | nil => simp [rulesBlockSpec]
    | cons a l => simp [rulesBlockSpec]
  · cases knowledge with
    | nil => simp [knowledgeBlockSpec]
    | cons a l => simp [knowledgeBlockSpec]
  · intro mv
    by_cases hm : 1 < mv.message_count.getD 0 <;> simp [memoryBlockSpec, hm]

/-- Witness for C6: the decomposition applied at one concrete input with
all three optional blocks present. -/
theorem claim_C6_witness :
    build_system_prompt_parts ["r1"] [⟨"q", "a"⟩]
        (some ⟨some "greeting", some 2, none⟩) =
      basePromptParts ++ rulesBlockSpec ["r1"] ++
        knowledgeBlockSpec [⟨"q", "a"⟩] ++
        memoryBlockSpec (some ⟨some "greeting", some 2, none⟩) :=
  (claim_C6_prompt_composition ["r1"] [⟨"q", "a"⟩]
    (some ⟨some "greeting", some 2, none⟩)).1

/-- C7: the memory upsert creates the row with `message_count = 1` and
`last_intent = intent` when no row exists for the
`(tenant, user, channel)` tuple, and otherwise sets the intent and
increments the stored count by exactly one; hence on a fresh tuple the
count is 1 after the first upsert and 2 after the second. -/
theorem claim_C7_memory_upsert :
    ∀ (db : Session) (business_id : Nat) (user_id channel i1 i2 : String),
      db.updateFault = false →
      (findMemRow db.memory business_id user_id channel = none →
        findMemRow (update_conversation_memory db business_id user_id
            channel i1).memory business_id user_id channel =
          some (newMemRow business_id user_id channel i1 db.now) ∧
        (newMemRow business_id user_id channel i1 db.now).message_count =
          some 1 ∧
        (newMemRow business_id user_id channel i1 db.now).last_intent =
          some i1) ∧
      (∀ old, findMemRow db.memory business_id user_id channel = some old →
        findMemRow (update_conversation_memory db business_id user_id
            channel i1).memory business_id user_id channel =
          some (updatedMemRow old i1 db.now) ∧
        (updatedMemRow old i1 db.now).message_count =
          some (old.message_count.getD 0 + 1) ∧
        (updatedMemRow old i1 db.now).last_intent = some i1) ∧
      (findMemRow db.memory business_id user_id channel = none →
        ∃ r, findMemRow (update_conversation_memory
            (update_conversation_memory db business_id user_id channel i1)
            business_id user_id channel i2).memory business_id user_id
            channel = some r ∧
          r.message_count = some 2 ∧ r.last_intent = some i2) := by
  intro db business_id user_id channel i1 i2 hfault
  refine ⟨?_, ?_, ?_⟩
  · intro hnone
    have h := findMemRow_after_update db business_id user_id channel i1 hfault
    rw [hnone] at h
    exact ⟨h, rfl, rfl⟩
  · intro old hsome
    have h := findMemRow_after_update db business_id user_id channel i1 hfault
    rw [hsome] at h
    exact ⟨h, rfl, rfl⟩
  · intro hnone
    have h1 := findMemRow_after_update db business_id user_id channel i1 hfault
    rw [hnone] at h1
    have hfault2 : (update_conversation_memory db business_id user_id
        channel i1).updateFault = false := by
      unfold update_conversation_memory
      rw [hfault]
      simp only [Bool.false_eq_true, if_false]
      cases findMemRow db.memory business_id user_id channel <;> rfl
    have h2 := findMemRow_after_update
      (update_conversation_memory db business_id user_id channel i1)
      business_id user_id channel i2 hfault2
    rw [h1] at h2
    refine ⟨updatedMemRow (newMemRow business_id user_id channel i1 db.now)
      i2 (update_conversation_memory db business_id user_id channel
        i1).now, h2, rfl, rfl⟩

/-- Concrete session with an empty memory table, used to witness the
upsert theorem. -/
def c7db : Session := ⟨[], [], [], false, false, false, false, 4⟩

/-- Witness for C7 on a fresh tuple: count 1 after one upsert and count 2
after two upserts. -/
theorem claim_C7_witness :
    (findMemRow (update_conversation_memory c7db 1 "u1" "telegram"
        "greeting").memory 1 "u1" "telegram" =
      some (newMemRow 1 "u1" "telegram" "greeting" 4) ∧
      (newMemRow 1 "u1" "telegram" "greeting" 4).message_count = some 1 ∧
      (newMemRow 1 "u1" "telegram" "greeting" 4).last_intent =
        some "greeting") ∧
    (∃ r, findMemRow (update_conversation_memory
        (update_conversation_memory c7db 1 "u1" "telegram" "greeting")
        1 "u1" "telegram" "greeting").memory 1 "u1" "telegram" = some r ∧
      r.message_count = some 2 ∧ r.last_intent = some "greeting") := by
  obtain ⟨h1, _, h3⟩ :=
    claim_C7_memory_upsert c7db 1 "u1" "telegram" "greeting" "greeting" rfl
  exact ⟨h1 rfl, h3 rfl⟩

/-- C8: when no edge case triggers and generation is disabled (no API
credential), the pipeline returns exactly the fallback brain's reply for
the message, and the recorded `last_intent` is exactly the fallback
brain's detected intent (spec-modelled fallback brain; scope excludes the
empty-message input-validation short circuit, which C1 covers). -/
theorem claim_C8_fallback_equivalence :
    ∀ (m : NormalizedMessage) (business_id : Nat) (db : Session)
      (openai_api_key : Option String)
      (completion : Except Unit (Option String)) (es : EdgeState),
      (is_spam es m.user_id).1 = false →
      (validate_message_length m.message_text).1 = true →
      is_emoji_or_symbol_only m.message_text = false →
      (is_unsupported_action m.message_text).1 = false →
      gptEnabledOf openai_api_key = false →
      db.updateFault = false →
      m.message_text ≠ "" →
      process_message (some m) business_id db openai_api_key completion es
          false = fallback_process m ∧
      ∃ r, findMemRow (process_message_with_gpt m business_id db
          openai_api_key completion es).db.memory business_id m.user_id
          m.channel = some r ∧
        r.last_intent = some (detect_intent m).value := by
  intro m business_id db openai_api_key completion es h1 h2 h3 h4 hkey hupd
    htext
  have hbg := fallback_process_blankGuard m
  have hpipe : process_message_with_gpt m business_id db openai_api_key
      completion es =
      ⟨fallback_process m,
        update_conversation_memory db business_id m.user_id m.channel
          (detect_intent m).value, none, true, false⟩ := by
    simp [process_message_with_gpt, h1, h2, h3, h4, hkey, hbg]
  refine ⟨?_, ?_⟩
  · have hne : (m.message_text == "") = false := by
      simp [htext]
    simp [process_message, hne, hpipe, hbg]
  · rw [hpipe]
    have h := findMemRow_after_update db business_id m.user_id m.channel
      (detect_intent m).value hupd
    cases hf : findMemRow db.memory business_id m.user_id m.channel with
    | none => rw [hf] at h; exact ⟨_, h, rfl⟩
    | some old => rw [hf] at h; exact ⟨_, h, rfl⟩

/-- Concrete message for the C8 witness (the spec scenario: "hi there"
over telegram with generation disabled). -/
def c8msg : NormalizedMessage := ⟨"telegram", "u1", "hi there", 0⟩

/-- Concrete empty session for the C8 witness. -/
def c8db : Session := ⟨[], [], [], false, false, false, false, 0⟩

/-- Witness for C8 at the spec scenario: the greeting reply comes back
and the greeting intent is recorded. -/
theorem claim_C8_witness :
    process_message (some c8msg) 1 c8db none (Except.error ()) ⟨[], 0⟩
        false = fallback_process c8msg ∧
    ∃ r, findMemRow (process_message_with_gpt c8msg 1 c8db none
        (Except.error ()) ⟨[], 0⟩).db.memory 1 c8msg.user_id
        c8msg.channel = some r ∧
      r.last_intent = some (detect_intent c8msg).value :=
  claim_C8_fallback_equivalence c8msg 1 c8db none (Except.error ())
    ⟨[], 0⟩ (by decide) (by decide) (by decide) (by decide) rfl rfl
    (by decide)

set_option maxHeartbeats 1600000 in
/-- C9: a failing conversation-memory write is absorbed inside the update
step (the transaction is rolled back, leaving the rows unchanged), the
pipeline still returns the same reply it would have returned with a
healthy write, and no exception propagates. -/
theorem claim_C9_memory_failure_absorbed :
    ∀ (m : NormalizedMessage) (business_id : Nat) (db : Session)
      (openai_api_key : Option String)
      (completion : Except Unit (Option String)) (es : EdgeState)
      (user_id channel intent : String),
      (update_conversation_memory { db with updateFault := true }
        business_id user_id channel intent).memory = db.memory ∧
      (process_message_with_gpt m business_id
          { db with updateFault := true } openai_api_key completion
          es).reply =
        (process_message_with_gpt m business_id
          { db with updateFault := false } openai_api_key completion
          es).reply ∧
      (process_message_with_gpt m business_id
        { db with updateFault := true } openai_api_key completion
        es).db.memory = db.memory := by
  intro m business_id db openai_api_key completion es user_id channel intent
  refine ⟨?_, ?_, ?_⟩
  · simp [update_conversation_memory]
  · rcases completion with e | o
    · simp only [process_message_with_gpt]
      split_ifs <;> rfl
    · cases o with
      | none =>
        simp only [process_message_with_gpt]
        split_ifs <;> rfl
      | some s =>
        simp only [process_message_with_gpt]
        split_ifs <;> rfl
  · rcases completion with e | o
    · simp only [process_message_with_gpt]
      split_ifs <;> rfl
    · cases o with
      | none =>
        simp only [process_message_with_gpt]
        split_ifs <;> rfl
      | some s =>
        simp only [process_message_with_gpt]
        split_ifs <;> rfl

/-- C10: when the generation engine answers with non-blank content, the
intent recorded in conversation memory is the constant string
"conversation", whatever the message says; a content-derived intent is
recorded only by the fallback path (which C8 exhibits). -/
theorem claim_C10_success_intent_is_conversation :
    ∀ (m : NormalizedMessage) (business_id : Nat) (db : Session)
      (openai_api_key : Option String) (s : String) (es : EdgeState),
      (is_spam es m.user_id).1 = false →
      (validate_message_length m.message_text).1 = true →
      is_emoji_or_symbol_only m.message_text = false →
      (is_unsupported_action m.message_text).1 = false →
      gptEnabledOf openai_api_key = true →
      blankGuard s = true →
      db.updateFault = false →
      (process_message_with_gpt m business_id db openai_api_key
        (Except.ok (some s)) es).reply = pyStrip s ∧
      ∃ r, findMemRow (process_message_with_gpt m business_id db
          openai_api_key (Except.ok (some s)) es).db.memory business_id
          m.user_id m.channel = some r ∧
        r.last_intent = some "conversation" := by
  intro m business_id db openai_api_key s es h1 h2 h3 h4 hkey hbg hupd
  refine ⟨?_, ?_⟩
  · simp [process_message_with_gpt, h1, h2, h3, h4, hkey, hbg]
  · have hred : (process_message_with_gpt m business_id db openai_api_key
        (Except.ok (some s)) es).db =
        update_conversation_memory db business_id m.user_id m.channel
          "conversation" := by
      simp [process_message_with_gpt, h1, h2, h3, h4, hkey, hbg]
    rw [hred]
    have h := findMemRow_after_update db business_id m.user_id m.channel
      "conversation" hupd
    cases hf : findMemRow db.memory business_id m.user_id m.channel with
    | none => rw [hf] at h; exact ⟨_, h, rfl⟩
    | some old => rw [hf] at h; exact ⟨_, h, rfl⟩

/-- Witness for C10 at a concrete successful completion: the stripped
content comes back and "conversation" is recorded. -/
theorem claim_C10_witness :
    (process_message_with_gpt ⟨"telegram", "u2", "what time is it", 0⟩ 1
      ⟨[], [], [], false, false, false, false, 0⟩ (some "k")
      (Except.ok (some " The time is noon. ")) ⟨[], 0⟩).reply =
      pyStrip " The time is noon. " ∧
    ∃ r, findMemRow (process_message_with_gpt
        ⟨"telegram", "u2", "what time is it", 0⟩ 1
        ⟨[], [], [], false, false, false, false, 0⟩ (some "k")
        (Except.ok (some " The time is noon. ")) ⟨[], 0⟩).db.memory 1
        "u2" "telegram" = some r ∧
      r.last_intent = some "conversation" :=
  claim_C10_success_intent_is_conversation
    ⟨"telegram", "u2", "what time is it", 0⟩ 1
    ⟨[], [], [], false, false, false, false, 0⟩ (some "k")
    " The time is noon. " ⟨[], 0⟩ (by decide) (by decide) (by decide)
    (by decide) (by decide) (by decide) rfl

/-- Witness for C1 at concrete inputs: a missing message and a faulted
outer block both yield the safe default, which is non-empty. -/
theorem claim_C1_witness :
    process_message none 1 ⟨[], [], [], false, false, false, false, 0⟩
      none (Except.error ()) ⟨[], 0⟩ false = SAFE_DEFAULT ∧
    process_message (some ⟨"telegram", "u1", "hello", 0⟩) 1
      ⟨[], [], [], false, false, false, false, 0⟩ none (Except.error ())
      ⟨[], 0⟩ true = SAFE_DEFAULT ∧
    process_message (some ⟨"telegram", "u1", "hello", 0⟩) 1
      ⟨[], [], [], false, false, false, false, 0⟩ none (Except.error ())
      ⟨[], 0⟩ false ≠ "" := by
  refine ⟨?_, ?_, ?_⟩
  · exact (claim_C1_never_empty_never_raises none 1
      ⟨[], [], [], false, false, false, false, 0⟩ none (Except.error ())
      ⟨[], 0⟩ false).2.2
  · exact (claim_C1_never_empty_never_raises
      (some ⟨"telegram", "u1", "hello", 0⟩) 1
      ⟨[], [], [], false, false, false, false, 0⟩ none (Except.error ())
      ⟨[], 0⟩ true).2.1
  · exact (claim_C1_never_empty_never_raises
      (some ⟨"telegram", "u1", "hello", 0⟩) 1
      ⟨[], [], [], false, false, false, false, 0⟩ none (Except.error ())
      ⟨[], 0⟩ false).1

/-- Witness for C9 at a concrete input: with the memory write faulted the
reply is unchanged and the memory rows are untouched. -/
theorem claim_C9_witness :
    (update_conversation_memory
      { (⟨[], [], [⟨1, "u1", "telegram", some "greeting", some 1, none,
        0⟩], false, false, false, false, 0⟩ : Session) with
        updateFault := true } 1 "u1" "telegram" "pricing").memory =
      [⟨1, "u1", "telegram", some "greeting", some 1, none, 0⟩] ∧
    (process_message_with_gpt ⟨"telegram", "u1", "hello", 0⟩ 1
        { (⟨[], [], [⟨1, "u1", "telegram", some "greeting", some 1, none,
          0⟩], false, false, false, false, 0⟩ : Session) with
          updateFault := true } none (Except.error ()) ⟨[], 0⟩).reply =
      (process_message_with_gpt ⟨"telegram", "u1", "hello", 0⟩ 1
        { (⟨[], [], [⟨1, "u1", "telegram", some "greeting", some 1, none,
          0⟩], false, false, false, false, 0⟩ : Session) with
          updateFault := false } none (Except.error ()) ⟨[], 0⟩).reply := by
  obtain ⟨h1, h2, _⟩ := claim_C9_memory_failure_absorbed
    ⟨"telegram", "u1", "hello", 0⟩ 1
    ⟨[], [], [⟨1, "u1", "telegram", some "greeting", some 1, none, 0⟩],
      false, false, false, false, 0⟩ none (Except.error ()) ⟨[], 0⟩
    "u1" "telegram" "pricing"
  exact ⟨h1, h2⟩
